import Mathlib

/-!
Verification of the tux3 commit flusher core, fs/tux3/commit_flusher.c.

The file embeds the two flusher configurations of commit_flusher.c
(TUX3_FLUSHER_SYNC and TUX3_FLUSHER_ASYNC) as executable Lean functions
over an explicit superblock state, plus small-step thread programs for the
code fragments whose correctness is inherently about interleavings
(the COMMIT_PENDING election and the TUX3_COMMIT_RUNNING_BIT recheck).

Operations of the repository that are only called from this file
(delta_after_eq, delta_transition, flush_delta, delta_get, delta_put,
sync_inodes_sb) are modelled from the spec, as marked on each definition.
-/

/-- Width of the unsigned delta counter: 2^32, the range of a C unsigned int. -/
def uRange : Nat := 4294967296

/-- Half of the delta counter range: 2^31. -/
def halfRange : Nat := 2147483648

/-- Error code returned by wait_event_killable when a fatal signal is pending. -/
def eRESTARTSYS : Int := -512

/-- Modelled from the spec: delta_after_eq is missing from src/ (only its call
sites in commit_flusher.c are present).  Spec 3: the comparison is the signed
interpretation of the unsigned difference a - b being nonnegative, i.e. the
32-bit value of a - b is below half the range. -/
def delta_after_eq (a b : Nat) : Bool :=
  decide ((a % uRange + (uRange - b % uRange)) % uRange < halfRange)

/-- Superblock state: the fields of struct sb read or written by
commit_flusher.c, plus instrumentation counters (flushCount, transCount,
warnCount, syncInodesCount) counting calls into the opaque collaborators, and
an oracle flushErrs supplying the result of each successive flush_delta call
(empty list means every flush succeeds). -/
structure SB where
  current_delta : Nat
  staging_delta : Nat
  committed_delta : Nat
  running : Bool
  pending : Bool
  refcount : Nat
  delta_lock : Bool
  flushErrs : List Int
  flushCount : Nat
  transCount : Nat
  warnCount : Nat
  syncInodesCount : Nat
  deriving DecidableEq, Repr

/-- Unify flags of sync_current_delta, from enum unify_flags. -/
inductive UnifyFlags where
  | ALLOW_UNIFY
  | NO_UNIFY
  | FORCE_UNIFY
  deriving DecidableEq, Repr

/-- Modelled from the spec: delta_transition is missing from src/.  Spec 4.4:
seal the currently open epoch (current_delta), record it as staged
(staging_delta becomes that epoch), open the next epoch, mark the sealed epoch
pending for commit, clear TRANSITION_RUNNING; transCount counts invocations. -/
def delta_transition (sb : SB) : SB :=
  { sb with staging_delta := sb.current_delta,
            current_delta := (sb.current_delta + 1) % uRange,
            pending := true,
            running := false,
            transCount := sb.transCount + 1 }

/-- Modelled from the spec: delta_get is missing from src/.  Spec 4.2: acquire
reads the open epoch, increments its live reference count and returns the
epoch; it never blocks. -/
def delta_get (sb : SB) : SB × Nat :=
  ({ sb with refcount := sb.refcount + 1 }, sb.current_delta)

/-- Modelled from the spec: delta_put is missing from src/.  Spec 4.2: release
decrements the live reference count.  The last-reference-of-a-sealed-epoch
signalling is not needed here: in the embedded callers the reference is taken
and dropped on the still-open epoch with no transition in between. -/
def delta_put (sb : SB) : SB :=
  { sb with refcount := sb.refcount - 1 }

/-- Modelled from the spec: flush_delta is missing from src/.  Spec 4.5 and 6:
perform the durable flush (result supplied by the flushErrs oracle, success
when the oracle is exhausted); on success committed_delta advances to
staging_delta, on a fatal error it does not; flushCount counts invocations. -/
def flush_delta (sb : SB) : Int × SB :=
  match sb.flushErrs with
  | [] => (0, { sb with committed_delta := sb.staging_delta,
                        flushCount := sb.flushCount + 1 })
  | e :: rest =>
      if e = 0 then
        (0, { sb with committed_delta := sb.staging_delta,
                      flushCount := sb.flushCount + 1,
                      flushErrs := rest })
      else
        (e, { sb with flushCount := sb.flushCount + 1,
                      flushErrs := rest })

/-- Modelled from the spec: sync_inodes_sb is the external OS writeback
trigger (spec 1, out of scope, modelled only via its interface); it is opaque
to the core state, counted by syncInodesCount. -/
def sync_inodes_sb (sb : SB) : SB :=
  { sb with syncInodesCount := sb.syncInodesCount + 1 }

/-- Embedding of flush_pending_delta, commit_flusher.c lines 34-45 (sync
flusher): if COMMIT_PENDING is not set, return 0; otherwise atomically test
and clear COMMIT_PENDING and, having won, call flush_delta. -/
def flush_pending_delta (sb : SB) : Int × SB :=
  if sb.pending = false then (0, sb)
  else if sb.pending = true then flush_delta { sb with pending := false }
  else (0, sb)

/-- Embedding of try_delta_transition_until_delta, commit_flusher.c lines
57-77 (identical to lines 145-165 of the async flusher): return the truth of
delta_after_eq(staging_delta, delta), first attempting the transition itself
when the predicate is false and TUX3_COMMIT_RUNNING_BIT is won, with a
recheck after winning the bit. -/
def try_delta_transition_until_delta (sb : SB) (delta : Nat) : SB × Bool :=
  if delta_after_eq sb.staging_delta delta then (sb, true)
  else if sb.running = false then
    let sb1 : SB := { sb with running := true }
    if delta_after_eq sb1.staging_delta delta then
      ({ sb1 with running := false }, true)
    else
      let sb2 := delta_transition sb1
      (sb2, delta_after_eq sb2.staging_delta delta)
  else (sb, delta_after_eq sb.staging_delta delta)

/-- Embedding of try_flush_pending_until_delta, commit_flusher.c lines 86-95:
if committed_delta has not reached delta, call flush_pending_delta (its error
return is discarded, as in the source), then return the truth of
delta_after_eq(committed_delta, delta) on the resulting state. -/
def try_flush_pending_until_delta (sb : SB) (delta : Nat) : SB × Bool :=
  let sb1 := if delta_after_eq sb.committed_delta delta = false
             then (flush_pending_delta sb).2
             else sb
  (sb1, delta_after_eq sb1.committed_delta delta)

/-- Environment events seen by a sleeping waiter: a fatal signal becomes
pending (kill), or another thread mutates the shared state before the next
wakeup (interfere). -/
inductive Event where
  | kill
  | interfere (f : SB → SB)

/-- Embedding of the kernel wait_event_killable macro: evaluate the condition
(which here has side effects on the shared state); if true return 0; if a
fatal signal is pending return -ERESTARTSYS; otherwise sleep and retry after
the next environment event.  An exhausted event list with the condition still
false means the waiter is still blocked, returned as none. -/
def wait_event_killable (cond : SB → SB × Bool) : List Event → SB → Option (Int × SB)
  | evs, sb =>
      let r := cond sb
      if r.2 then some (0, r.1)
      else
        match evs with
        | [] => none
        | Event.kill :: _ => some (eRESTARTSYS, r.1)
        | Event.interfere f :: rest => wait_event_killable cond rest (f r.1)

/-- Embedding of the kernel wait_event macro (uninterruptible): evaluate the
pure condition; if true return; a pending fatal signal is ignored and the
wait continues; none means the waiter is still blocked. -/
def wait_event (cond : SB → Bool) : List Event → SB → Option SB
  | evs, sb =>
      if cond sb then some sb
      else
        match evs with
        | [] => none
        | Event.kill :: rest => wait_event cond rest sb
        | Event.interfere f :: rest => wait_event cond rest (f sb)

/-- Embedding of wait_for_transition, commit_flusher.c lines 80-84 (and the
identical lines 168-172): wait_event_killable on
try_delta_transition_until_delta. -/
def wait_for_transition (sb : SB) (delta : Nat) (evs : List Event) : Option (Int × SB) :=
  wait_event_killable (fun s => try_delta_transition_until_delta s delta) evs sb

/-- Embedding of wait_for_commit, commit_flusher.c lines 97-101:
wait_event_killable on try_flush_pending_until_delta. -/
def wait_for_commit (sb : SB) (delta : Nat) (evs : List Event) : Option (Int × SB) :=
  wait_event_killable (fun s => try_flush_pending_until_delta s delta) evs sb

/-- Embedding of sync_current_delta, commit_flusher.c lines 103-131 (sync
flusher): take delta_lock (none models blocking on a held lock), capture the
current delta via delta_get and delta_put, wait_for_transition, and on its
error return the error directly, without releasing delta_lock, exactly as the
early return at line 123 does; otherwise wait_for_commit, release delta_lock
and return its result.  The unify_flag argument is only stored under
UNIFY_DEBUG in the source and is otherwise unused. -/
def sync_current_delta (sb : SB) (uf : UnifyFlags) (evs1 evs2 : List Event) :
    Option (Int × SB) :=
  if sb.delta_lock then none
  else
    let sb0 : SB := { sb with delta_lock := true }
    let gd := delta_get sb0
    let delta := gd.2
    let sb1 := delta_put gd.1
    match wait_for_transition sb1 delta evs1 with
    | none => none
    | some (err, sb2) =>
        if err = 0 then
          match wait_for_commit sb2 delta evs2 with
          | none => none
          | some (err2, sb3) => some (err2, { sb3 with delta_lock := false })
        else
          some (err, sb2)

/-- Embedding of tux3_writeback, commit_flusher.c lines 174-217 (async
flusher): if MS_ACTIVE is not set return 0 at once; otherwise capture the
current delta, wait_for_transition (propagating its error with nr_pages
untouched), wait uninterruptibly for TUX3_COMMIT_PENDING_BIT, then test the
bit, clear it and flush_delta (the flush error is ignored, as the FIXME in
the source notes), set nr_pages to 0 and return 1.  The result triple is
(return value, state, nr_pages). -/
def tux3_writeback (active : Bool) (sb : SB) (evs1 evs2 : List Event)
    (nr_pages : Int) : Option (Int × SB × Int) :=
  if active = false then some (0, sb, nr_pages)
  else
    let gd := delta_get sb
    let delta := gd.2
    let sb1 := delta_put gd.1
    match wait_for_transition sb1 delta evs1 with
    | none => none
    | some (err, sb2) =>
        if err = 0 then
          match wait_event (fun s => s.pending) evs2 sb2 with
          | none => none
          | some sb3 =>
              let sb4 := if sb3.pending then
                           (flush_delta { sb3 with pending := false }).2
                         else sb3
              some (1, sb4, 0)
        else
          some (err, sb2, nr_pages)

/-- Embedding of sync_current_delta, commit_flusher.c lines 219-228 (async
flusher): WARN_ON for FORCE_UNIFY (counted by warnCount, never a crash), take
s_umount shared, sync_inodes_sb, release, return 0. -/
def sync_current_delta_async (sb : SB) (uf : UnifyFlags) : Int × SB :=
  let sb1 := if uf = UnifyFlags.FORCE_UNIFY
             then { sb with warnCount := sb.warnCount + 1 }
             else sb
  (0, sync_inodes_sb sb1)

/-- Program counter of one thread executing flush_pending_delta,
commit_flusher.c lines 34-45: the test_bit at line 38, the
test_and_clear_bit at line 41, the flush_delta call at line 42, done. -/
inductive FpPc where
  | testBit
  | tacBit
  | callFlush
  | doneF
  deriving DecidableEq, Repr

/-- One atomic step of a thread running flush_pending_delta: test_bit reads
COMMIT_PENDING; test_and_clear_bit atomically reads and clears it, the flush
call being reached only on a true read; flush_delta is one opaque step. -/
def fpThreadStep (s : SB) : FpPc → SB × FpPc
  | FpPc.testBit => if s.pending then (s, FpPc.tacBit) else (s, FpPc.doneF)
  | FpPc.tacBit =>
      if s.pending then ({ s with pending := false }, FpPc.callFlush)
      else (s, FpPc.doneF)
  | FpPc.callFlush => ((flush_delta s).2, FpPc.doneF)
  | FpPc.doneF => (s, FpPc.doneF)

/-- One step of a pool of threads all running flush_pending_delta over the
shared state: the scheduler picks thread i (out-of-range picks are no-ops). -/
def fpSysStep (st : SB × List FpPc) (i : Nat) : SB × List FpPc :=
  match st.2.get? i with
  | none => st
  | some pc =>
      let r := fpThreadStep st.1 pc
      (r.1, st.2.set i r.2)

/-- Run a pool of flush_pending_delta threads under a schedule. -/
def fpRun (sched : List Nat) (st : SB × List FpPc) : SB × List FpPc :=
  sched.foldl fpSysStep st

/-- Election measure for the flush_pending_delta pool: flush_delta calls made,
plus threads that have won the test_and_clear and not yet flushed, plus the
COMMIT_PENDING bit. -/
def fpMeasure (st : SB × List FpPc) : Nat :=
  st.1.flushCount + st.2.countP (fun pc => pc == FpPc.callFlush)
    + (if st.1.pending then 1 else 0)

/-- Program counter of one thread executing the flush fragment of
tux3_writeback, commit_flusher.c lines 204-213: the test_bit at line 204, the
separate clear_bit at line 205, the flush_delta call at line 207, done. -/
inductive WbPc where
  | testBitW
  | clearBitW
  | callFlushW
  | doneW
  deriving DecidableEq, Repr

/-- One atomic step of a thread running the tux3_writeback flush fragment:
test_bit reads COMMIT_PENDING, and on a true read the thread proceeds to a
separate unconditional clear_bit and then flush_delta - there is no atomic
test-and-clear here, mirroring lines 204-207 of the source. -/
def wbThreadStep (s : SB) : WbPc → SB × WbPc
  | WbPc.testBitW => if s.pending then (s, WbPc.clearBitW) else (s, WbPc.doneW)
  | WbPc.clearBitW => ({ s with pending := false }, WbPc.callFlushW)
  | WbPc.callFlushW => ((flush_delta s).2, WbPc.doneW)
  | WbPc.doneW => (s, WbPc.doneW)

/-- One scheduler step of a pool of tux3_writeback flush fragments. -/
def wbSysStep (st : SB × List WbPc) (i : Nat) : SB × List WbPc :=
  match st.2.get? i with
  | none => st
  | some pc =>
      let r := wbThreadStep st.1 pc
      (r.1, st.2.set i r.2)

/-- Run a pool of tux3_writeback flush fragments under a schedule. -/
def wbRun (sched : List Nat) (st : SB × List WbPc) : SB × List WbPc :=
  sched.foldl wbSysStep st

/-- Program counter of one thread executing try_delta_transition_until_delta,
commit_flusher.c lines 57-77: the first predicate check at line 63, the
test_and_set_bit at line 66, the recheck at line 68, the delta_transition
call at line 73, the final check at line 76, and done carrying the returned
truth value. -/
inductive TdPc where
  | checkFirst
  | tryBit
  | recheck
  | callTrans
  | finalCheck
  | tdDone (ret : Bool)
  deriving DecidableEq, Repr

/-- One atomic step of a thread running try_delta_transition_until_delta for
target delta: each program counter performs exactly the read, atomic bit
operation or call of the corresponding source line. -/
def tdStep (delta : Nat) (s : SB) : TdPc → SB × TdPc
  | TdPc.checkFirst =>
      if delta_after_eq s.staging_delta delta then (s, TdPc.tdDone true)
      else (s, TdPc.tryBit)
  | TdPc.tryBit =>
      if s.running then (s, TdPc.finalCheck)
      else ({ s with running := true }, TdPc.recheck)
  | TdPc.recheck =>
      if delta_after_eq s.staging_delta delta then
        ({ s with running := false }, TdPc.tdDone true)
      else (s, TdPc.callTrans)
  | TdPc.callTrans => (delta_transition s, TdPc.finalCheck)
  | TdPc.finalCheck => (s, TdPc.tdDone (delta_after_eq s.staging_delta delta))
  | TdPc.tdDone r => (s, TdPc.tdDone r)

/-- Concrete quiescent superblock state used for concrete evaluations: delta 5
is current, transitioned and committed, no bits set, no locks, every flush
succeeds. -/
def baseSB : SB :=
  { current_delta := 5, staging_delta := 5, committed_delta := 5,
    running := false, pending := false, refcount := 0, delta_lock := false,
    flushErrs := [], flushCount := 0, transCount := 0, warnCount := 0,
    syncInodesCount := 0 }

/-- Counting a predicate after a point update of a list, additive form. -/
theorem countP_set_add {α : Type} (p : α → Bool) :
    ∀ (l : List α) (i : Nat) (x pc : α), l.get? i = some pc →
      (l.set i x).countP p + (if p pc then 1 else 0)
        = l.countP p + (if p x then 1 else 0) := by
  intro l
  induction l with
  | nil => intro i x pc h; simp at h
  | cons a t ih =>
      intro i x pc h
      cases i with
      | zero =>
          simp at h
          subst h
          simp [List.countP_cons]
          omega
      | succ n =>
          have h' : t.get? n = some pc := h
          have := ih n x pc h'
          simp [List.countP_cons]
          omega

/-- Effect of the opaque flush on the instrumentation: one more flush call,
the COMMIT_PENDING bit untouched. -/
theorem flush_delta_effects (s : SB) :
    ((flush_delta s).2).flushCount = s.flushCount + 1
      ∧ ((flush_delta s).2).pending = s.pending := by
  unfold flush_delta
  cases hfe : s.flushErrs with
  | nil => exact ⟨rfl, rfl⟩
  | cons e rest => by_cases he : e = 0 <;> simp [he]

/-- Every scheduler step of the flush_pending_delta pool preserves the
election measure. -/
theorem fpMeasure_step (st : SB × List FpPc) (i : Nat) :
    fpMeasure (fpSysStep st i) = fpMeasure st := by
  unfold fpSysStep
  cases hg : st.2.get? i with
  | none => rfl
  | some pc =>
      cases pc with
      | testBit =>
          have hset := countP_set_add (fun pc => pc == FpPc.callFlush) st.2 i
            (fpThreadStep st.1 FpPc.testBit).2 FpPc.testBit hg
          unfold fpMeasure
          by_cases hp : st.1.pending <;>
            simp [fpThreadStep, hp] at hset ⊢ <;> omega
      | tacBit =>
          have hset := countP_set_add (fun pc => pc == FpPc.callFlush) st.2 i
            (fpThreadStep st.1 FpPc.tacBit).2 FpPc.tacBit hg
          unfold fpMeasure
          by_cases hp : st.1.pending <;>
            simp [fpThreadStep, hp] at hset ⊢ <;> omega
      | callFlush =>
          have hset := countP_set_add (fun pc => pc == FpPc.callFlush) st.2 i
            (fpThreadStep st.1 FpPc.callFlush).2 FpPc.callFlush hg
          have heff := flush_delta_effects st.1
          unfold fpMeasure
          simp [fpThreadStep, heff.1, heff.2] at hset ⊢
          omega
      | doneF =>
          have hset := countP_set_add (fun pc => pc == FpPc.callFlush) st.2 i
            (fpThreadStep st.1 FpPc.doneF).2 FpPc.doneF hg
          unfold fpMeasure
          simp [fpThreadStep] at hset ⊢
          omega

/-- Running the flush_pending_delta pool under any schedule preserves the
election measure. -/
theorem fpMeasure_run (sched : List Nat) :
    ∀ st, fpMeasure (fpRun sched st) = fpMeasure st := by
  induction sched with
  | nil => intro st; rfl
  | cons i rest ih =>
      intro st
      have h1 : fpRun (i :: rest) st = fpRun rest (fpSysStep st i) := rfl
      rw [h1, ih, fpMeasure_step]

/-- A true return of try_delta_transition_until_delta means the transition
predicate holds on the resulting state. -/
theorem tdtud_true (sb : SB) (delta : Nat)
    (h : (try_delta_transition_until_delta sb delta).2 = true) :
    delta_after_eq (try_delta_transition_until_delta sb delta).1.staging_delta
      delta = true := by
  unfold try_delta_transition_until_delta at h ⊢
  by_cases h1 : delta_after_eq sb.staging_delta delta
  · simp [h1]
  · by_cases h2 : sb.running = false <;>
      simp [h1, h2] at h ⊢ <;> try exact h

/-- A true return of try_flush_pending_until_delta means the commit predicate
holds on the resulting state. -/
theorem tfpud_true (sb : SB) (delta : Nat)
    (h : (try_flush_pending_until_delta sb delta).2 = true) :
    delta_after_eq (try_flush_pending_until_delta sb delta).1.committed_delta
      delta = true := by
  simpa [try_flush_pending_until_delta] using h

/-- Soundness of the killable wait: a returned value is either 0 with the
postcondition of the condition function established, or the interruption
error -ERESTARTSYS. -/
theorem wek_some (cond : SB → SB × Bool) (P : SB → Prop)
    (hc : ∀ s, (cond s).2 = true → P (cond s).1) :
    ∀ (evs : List Event) (sb : SB) (r : Int) (s' : SB),
      wait_event_killable cond evs sb = some (r, s') →
      (r = 0 → P s') ∧ (r ≠ 0 → r = eRESTARTSYS) := by
  intro evs
  induction evs with
  | nil =>
      intro sb r s' h
      unfold wait_event_killable at h
      by_cases hb : (cond sb).2 = true <;> simp [hb] at h
      obtain ⟨hr, hs⟩ := h
      subst hr; subst hs
      exact ⟨fun _ => hc sb hb, fun hne => absurd rfl hne⟩
  | cons e rest ih =>
      intro sb r s' h
      unfold wait_event_killable at h
      by_cases hb : (cond sb).2 = true
      · simp [hb] at h
        obtain ⟨hr, hs⟩ := h
        subst hr; subst hs
        exact ⟨fun _ => hc sb hb, fun hne => absurd rfl hne⟩
      · simp [hb] at h
        cases e with
        | kill =>
            simp at h
            obtain ⟨hr, hs⟩ := h
            subst hr
            refine ⟨fun h0 => ?_, fun _ => rfl⟩
            exact absurd h0 (by unfold eRESTARTSYS; decide)
        | interfere f =>
            exact ih (f (cond sb).1) r s' h

/-- A killable wait whose condition is immediately true returns success with
the condition's resulting state, regardless of the pending events. -/
theorem wek_immediate (cond : SB → SB × Bool) (evs : List Event) (sb : SB)
    (h : (cond sb).2 = true) :
    wait_event_killable cond evs sb = some (0, (cond sb).1) := by
  cases evs with
  | nil =>
      unfold wait_event_killable
      simp [h]
  | cons e rest =>
      unfold wait_event_killable
      simp [h]

/-- C3: delta_after_eq is the wraparound-safe order on the fixed-width
unsigned epoch counter, the signed interpretation of the unsigned difference
being nonnegative: it is reflexive, and for any b and any k below half the
range, delta_after_eq (b + k) b holds while delta_after_eq b (b + k) fails
unless k is zero. -/
theorem delta_after_eq_order (a b k : Nat) :
    delta_after_eq a a = true
      ∧ (k < halfRange → delta_after_eq (b + k) b = true)
      ∧ (0 < k → k < halfRange → delta_after_eq b (b + k) = false) := by
  refine ⟨?_, fun hk => ?_, fun h0 hk => ?_⟩ <;>
    · unfold delta_after_eq uRange halfRange at *
      simp only [decide_eq_true_eq, decide_eq_false_iff_not]
      omega

/-- Witness for C3 at concrete inputs, one of which wraps past 2^32. -/
theorem delta_after_eq_order_witness :
    delta_after_eq 7 7 = true
      ∧ delta_after_eq (4294967290 + 10) 4294967290 = true
      ∧ delta_after_eq 4294967290 (4294967290 + 10) = false :=
  ⟨(delta_after_eq_order 7 0 0).1,
   (delta_after_eq_order 0 4294967290 10).2.1 (by decide),
   (delta_after_eq_order 0 4294967290 10).2.2 (by decide) (by decide)⟩

/-- C4: in try_delta_transition_until_delta, a thread that wins
TUX3_COMMIT_RUNNING_BIT but whose recheck finds the predicate already true
clears the bit and returns success without calling delta_transition; the
delta_transition call is reached only from the recheck with the predicate
still false, and the recheck only by winning the bit. -/
theorem td_recheck_no_transition (delta : Nat) (s : SB) :
    (delta_after_eq s.staging_delta delta = true →
        tdStep delta s TdPc.recheck = ({ s with running := false }, TdPc.tdDone true))
      ∧ (∀ pc, ((tdStep delta s pc).1.transCount ≠ s.transCount) → pc = TdPc.callTrans)
      ∧ (∀ pc, (tdStep delta s pc).2 = TdPc.callTrans →
           pc = TdPc.recheck ∧ delta_after_eq s.staging_delta delta = false)
      ∧ (∀ pc, (tdStep delta s pc).2 = TdPc.recheck →
           pc = TdPc.tryBit ∧ s.running = false) := by
  have htrans : ∀ pc, ((tdStep delta s pc).1.transCount ≠ s.transCount) →
      pc = TdPc.callTrans := by
    intro pc h
    cases pc
    case checkFirst =>
      by_cases hc : delta_after_eq s.staging_delta delta <;> simp [tdStep, hc] at h
    case tryBit => by_cases hr : s.running <;> simp [tdStep, hr] at h
    case recheck =>
      by_cases hc : delta_after_eq s.staging_delta delta <;> simp [tdStep, hc] at h
    case callTrans => rfl
    case finalCheck => simp [tdStep] at h
    case tdDone r => simp [tdStep] at h
  have hreach : ∀ pc, (tdStep delta s pc).2 = TdPc.callTrans →
      pc = TdPc.recheck ∧ delta_after_eq s.staging_delta delta = false := by
    intro pc h
    cases pc
    case checkFirst =>
      by_cases hc : delta_after_eq s.staging_delta delta <;> simp [tdStep, hc] at h
    case tryBit => by_cases hr : s.running <;> simp [tdStep, hr] at h
    case recheck =>
      by_cases hc : delta_after_eq s.staging_delta delta
      · simp [tdStep, hc] at h
      · exact ⟨rfl, by simpa using hc⟩
    case callTrans => simp [tdStep] at h
    case finalCheck => simp [tdStep] at h
    case tdDone r => simp [tdStep] at h
  have hwin : ∀ pc, (tdStep delta s pc).2 = TdPc.recheck →
      pc = TdPc.tryBit ∧ s.running = false := by
    intro pc h
    cases pc
    case checkFirst =>
      by_cases hc : delta_after_eq s.staging_delta delta <;> simp [tdStep, hc] at h
    case tryBit =>
      by_cases hr : s.running
      · simp [tdStep, hr] at h
      · exact ⟨rfl, by simpa using hr⟩
    case recheck =>
      by_cases hc : delta_after_eq s.staging_delta delta <;> simp [tdStep, hc] at h
    case callTrans => simp [tdStep] at h
    case finalCheck => simp [tdStep] at h
    case tdDone r => simp [tdStep] at h
  exact ⟨fun h => by simp [tdStep, h], htrans, hreach, hwin⟩

/-- Witness for C4: a winner whose recheck sees the transition already done
releases the bit and reports success; a state behind the target steps from
the recheck into the delta_transition call. -/
theorem td_recheck_no_transition_witness :
    tdStep 5 { baseSB with running := true } TdPc.recheck
        = ({ baseSB with running := false }, TdPc.tdDone true)
      ∧ (TdPc.callTrans = TdPc.callTrans)
      ∧ (TdPc.recheck = TdPc.recheck
          ∧ delta_after_eq 0 5 = false) :=
  ⟨(td_recheck_no_transition 5 { baseSB with running := true }).1 (by decide),
   (td_recheck_no_transition 5 { baseSB with running := true }).2.1
     TdPc.callTrans (by decide),
   (td_recheck_no_transition 5
       { baseSB with staging_delta := 0, running := true }).2.2.1
     TdPc.recheck (by decide)⟩

/-- C1 counterexample: two threads interleaved in the flush fragment of
tux3_writeback (separate test_bit at line 204 and clear_bit at line 205, not
an atomic test-and-clear) both observe COMMIT_PENDING set and both call
flush_delta: the claim that exactly one of the observers flushes is false for
this code path. -/
theorem wb_double_flush :
    (wbRun [0, 1, 0, 0, 1, 1]
        ({ baseSB with pending := true, committed_delta := 4 },
         [WbPc.testBitW, WbPc.testBitW])).1.flushCount = 2 := by decide

/-- C1 amended: in flush_pending_delta, where COMMIT_PENDING is relinquished
via the atomic test_and_clear_bit, any number of threads racing from a
pending state perform at most one flush_delta call, under every schedule. -/
theorem flush_pending_delta_election (n : Nat) (sched : List Nat) (s : SB)
    (hp : s.pending = true) (hf : s.flushCount = 0) :
    (fpRun sched (s, List.replicate n FpPc.testBit)).1.flushCount ≤ 1 := by
  have h := fpMeasure_run sched (s, List.replicate n FpPc.testBit)
  unfold fpMeasure at h
  simp [List.countP_replicate, hp, hf] at h
  cases hb : (fpRun sched (s, List.replicate n FpPc.testBit)).1.pending <;>
    rw [hb] at h <;> simp at h <;> omega

/-- Witness for C1 amended: two racing flush_pending_delta threads, run to
completion, flush at most once. -/
theorem flush_pending_delta_election_witness :
    (fpRun [0, 1, 0, 1, 0, 1]
        ({ baseSB with pending := true, committed_delta := 4 },
         List.replicate 2 FpPc.testBit)).1.flushCount ≤ 1 :=
  flush_pending_delta_election 2 [0, 1, 0, 1, 0, 1]
    { baseSB with pending := true, committed_delta := 4 } rfl rfl

/-- C7: wait_for_transition returns 0 only with the transition predicate true
on the state at return, any nonzero return is the distinguishable
interruption error -ERESTARTSYS, and a fatal signal arriving while the
predicate is false does produce that interrupted return. -/
theorem wait_for_transition_sound (sb : SB) (delta : Nat) (evs : List Event)
    (r : Int) (s' : SB) (h : wait_for_transition sb delta evs = some (r, s')) :
    (r = 0 → delta_after_eq s'.staging_delta delta = true)
      ∧ (r ≠ 0 → r = eRESTARTSYS)
      ∧ ((try_delta_transition_until_delta sb delta).2 = false →
           wait_for_transition sb delta (Event.kill :: evs)
             = some (eRESTARTSYS, (try_delta_transition_until_delta sb delta).1)) := by
  have hs := wek_some (fun s => try_delta_transition_until_delta s delta)
    (fun s => delta_after_eq s.staging_delta delta = true)
    (fun s hcond => tdtud_true s delta hcond) evs sb r s' h
  refine ⟨hs.1, hs.2, fun hfalse => ?_⟩
  unfold wait_for_transition wait_event_killable
  simp [hfalse]

/-- Witness for C7: an immediately satisfied wait returns 0 with the
predicate true on the final state. -/
theorem wait_for_transition_sound_witness :
    ((0 : Int) = 0 → delta_after_eq baseSB.staging_delta 5 = true)
      ∧ ((0 : Int) ≠ 0 → (0 : Int) = eRESTARTSYS)
      ∧ ((try_delta_transition_until_delta baseSB 5).2 = false →
           wait_for_transition baseSB 5 (Event.kill :: [])
             = some (eRESTARTSYS, (try_delta_transition_until_delta baseSB 5).1)) :=
  wait_for_transition_sound baseSB 5 [] 0 baseSB (by decide)

/-- C6 counterexample: the wait for the pending bit inside tux3_writeback
(line 201) is the uninterruptible wait_event, so with the transition already
satisfied and no delta pending, repeated fatal signals produce no interrupted
return: the call is still blocked (none) rather than returning the promised
distinguishable nonzero interrupted outcome. -/
theorem writeback_wait_ignores_kill :
    tux3_writeback true baseSB [] [Event.kill, Event.kill] 7 = none := by decide

/-- C6 amended: the two killable waits, wait_for_transition and
wait_for_commit, do return the distinguishable interruption error
-ERESTARTSYS when a fatal signal arrives while their predicate is false; the
pending-bit wait inside tux3_writeback is a plain wait_event on which a
fatal signal is a no-op. -/
theorem killable_waits_interruptible (sb : SB) (delta : Nat) (evs : List Event) :
    ((try_delta_transition_until_delta sb delta).2 = false →
        wait_for_transition sb delta (Event.kill :: evs)
          = some (eRESTARTSYS, (try_delta_transition_until_delta sb delta).1))
      ∧ ((try_flush_pending_until_delta sb delta).2 = false →
        wait_for_commit sb delta (Event.kill :: evs)
          = some (eRESTARTSYS, (try_flush_pending_until_delta sb delta).1))
      ∧ (∀ s : SB, s.pending = false →
           wait_event (fun s => s.pending) (Event.kill :: evs) s
             = wait_event (fun s => s.pending) evs s) := by
  refine ⟨fun h1 => ?_, fun h2 => ?_, fun s hs => ?_⟩
  · unfold wait_for_transition wait_event_killable
    simp [h1]
  · unfold wait_for_commit wait_event_killable
    simp [h2]
  · conv_lhs => unfold wait_event
    simp [hs]

/-- Witness for C6 amended: a thread that lost the transition race and a
commit waiter with nothing pending both return -ERESTARTSYS on a fatal
signal, while the writeback pending-bit wait treats the same signal as a
no-op. -/
theorem killable_waits_interruptible_witness :
    wait_for_transition { baseSB with staging_delta := 0, running := true } 5
        (Event.kill :: [])
        = some (eRESTARTSYS, { baseSB with staging_delta := 0, running := true })
      ∧ wait_for_commit { baseSB with committed_delta := 4 } 5 (Event.kill :: [])
        = some (eRESTARTSYS, { baseSB with committed_delta := 4 })
      ∧ wait_event (fun s => s.pending) (Event.kill :: [])
          { baseSB with committed_delta := 4 }
        = wait_event (fun s => s.pending) [] { baseSB with committed_delta := 4 } :=
  ⟨(killable_waits_interruptible { baseSB with staging_delta := 0, running := true }
      5 []).1 (by decide),
   (killable_waits_interruptible { baseSB with committed_delta := 4 } 5 []).2.1
     (by decide),
   (killable_waits_interruptible { baseSB with committed_delta := 4 } 5 []).2.2
     { baseSB with committed_delta := 4 } (by decide)⟩

/-- C5 amended: sync_current_delta (sync flusher) never returns success with
committed_delta behind the captured current delta, and interruption errors
from either wait stage are propagated; but the only possible return values
are 0 and -ERESTARTSYS: a fatal error of the flush body is discarded inside
try_flush_pending_until_delta and is never the return value. -/
theorem sync_current_delta_success_committed (sb : SB) (uf : UnifyFlags)
    (evs1 evs2 : List Event) (r : Int) (s' : SB)
    (h : sync_current_delta sb uf evs1 evs2 = some (r, s')) :
    (r = 0 → delta_after_eq s'.committed_delta sb.current_delta = true)
      ∧ (r = 0 ∨ r = eRESTARTSYS) := by
  unfold sync_current_delta at h
  by_cases hl : sb.delta_lock = true
  · simp [hl] at h
  · rw [if_neg hl] at h
    simp only [delta_get, delta_put] at h
    rcases hw : wait_for_transition
        { sb with delta_lock := true, refcount := sb.refcount + 1 - 1 }
        sb.current_delta evs1 with _ | ⟨err, sb2⟩ <;> rw [hw] at h
    · simp at h
    · by_cases he : err = 0
      · subst he
        simp at h
        rcases hc : wait_for_commit sb2 sb.current_delta evs2 with _ | ⟨err2, sb3⟩ <;>
          rw [hc] at h <;> simp at h
        obtain ⟨hr, hs⟩ := h
        subst hr
        subst hs
        have hk := wek_some
          (fun s => try_flush_pending_until_delta s sb.current_delta)
          (fun s => delta_after_eq s.committed_delta sb.current_delta = true)
          (fun s hcond => tfpud_true s sb.current_delta hcond) evs2 sb2 _ _ hc
        refine ⟨fun h0 => ?_, ?_⟩
        · simpa using hk.1 h0
        · by_cases h2 : err2 = 0
          · exact Or.inl h2
          · exact Or.inr (hk.2 h2)
      · simp [he] at h
        obtain ⟨hr, hs⟩ := h
        subst hr
        subst hs
        have hk := wek_some
          (fun s => try_delta_transition_until_delta s sb.current_delta)
          (fun _ => True) (fun _ _ => trivial) evs1
          { sb with delta_lock := true, refcount := sb.refcount + 1 - 1 }
          err sb2 hw
        exact ⟨fun h0 => absurd h0 he, Or.inr (hk.2 he)⟩

/-- Witness for C5 amended: a full successful pass, delta 5 pending and then
flushed, returns 0 with the commit predicate true on the final state. -/
theorem sync_current_delta_success_committed_witness :
    ((0 : Int) = 0 →
        delta_after_eq (SB.committed_delta { baseSB with flushCount := 1 })
          baseSB.current_delta = true)
      ∧ ((0 : Int) = 0 ∨ (0 : Int) = eRESTARTSYS) :=
  sync_current_delta_success_committed
    { baseSB with committed_delta := 4, pending := true }
    UnifyFlags.ALLOW_UNIFY [] [] 0 { baseSB with flushCount := 1 } (by decide)

/-- C5 counterexample: with a fatal flush error -5 injected while delta 5 is
pending and uncommitted, the call either returns the interruption error (when
a fatal signal arrives) or is still blocked (none, with no signal): the fatal
commit-stage error is never the return value, although the flush body was
invoked and failed (the oracle is consumed, flushCount is 1 and
committed_delta stays behind). -/
theorem sync_flush_error_not_propagated :
    sync_current_delta
        { baseSB with committed_delta := 4, pending := true, flushErrs := [-5] }
        UnifyFlags.ALLOW_UNIFY [] [Event.kill]
      = some (eRESTARTSYS,
          { baseSB with committed_delta := 4, pending := false,
                        flushErrs := [], flushCount := 1 })
      ∧ sync_current_delta
          { baseSB with committed_delta := 4, pending := true, flushErrs := [-5] }
          UnifyFlags.ALLOW_UNIFY [] [] = none
      ∧ eRESTARTSYS ≠ -5 := by decide

/-- C2 is violated by the code: when wait_for_transition fails, the early
return at line 123 of commit_flusher.c skips the up_write of delta_lock, so
sync_current_delta returns the error while still holding the lock.
Evaluation at the failing input: another thread holds
TUX3_COMMIT_RUNNING_BIT, the transition has not reached the target and a
fatal signal arrives; the call returns -ERESTARTSYS with delta_lock still
held, and a second call on the resulting state then blocks forever (none). -/
theorem sync_current_delta_lock_leak :
    sync_current_delta { baseSB with staging_delta := 0, running := true }
        UnifyFlags.ALLOW_UNIFY [Event.kill] []
      = some (eRESTARTSYS,
          { baseSB with staging_delta := 0, running := true, delta_lock := true })
      ∧ sync_current_delta
          { baseSB with staging_delta := 0, running := true, delta_lock := true }
          UnifyFlags.ALLOW_UNIFY [] [] = none := by decide

/-- C8: in the async flusher, sync_current_delta with FORCE_UNIFY only raises
the WARN_ON (warnCount increments, no crash) and otherwise completes exactly
like the non-forcing ALLOW_UNIFY call: one sync_inodes_sb pass, return value
0, and no change to the flush, transition or commit state. -/
theorem sync_async_force_unify (sb : SB) :
    sync_current_delta_async sb UnifyFlags.FORCE_UNIFY
        = (0, { sb with warnCount := sb.warnCount + 1,
                        syncInodesCount := sb.syncInodesCount + 1 })
      ∧ sync_current_delta_async sb UnifyFlags.ALLOW_UNIFY
        = (0, { sb with syncInodesCount := sb.syncInodesCount + 1 }) := by
  constructor <;> rfl

/-- C9: with the transition and commit predicates already holding for the
current delta, COMMIT_PENDING clear and delta_lock free, sync_current_delta
(sync flusher) returns success with the state unchanged: no delta_transition,
no flush_delta, and no change to TUX3_COMMIT_RUNNING_BIT or
TUX3_COMMIT_PENDING_BIT. -/
theorem sync_current_delta_noop (sb : SB) (evs1 evs2 : List Event)
    (hl : sb.delta_lock = false)
    (hs : delta_after_eq sb.staging_delta sb.current_delta = true)
    (hc : delta_after_eq sb.committed_delta sb.current_delta = true)
    (hp : sb.pending = false) :
    sync_current_delta sb UnifyFlags.ALLOW_UNIFY evs1 evs2 = some (0, sb) := by
  have hfin : ({ sb with delta_lock := false } : SB) = sb := by
    cases sb
    simp_all
  have e1 : try_delta_transition_until_delta
      { sb with delta_lock := true } sb.current_delta
      = ({ sb with delta_lock := true }, true) := by
    unfold try_delta_transition_until_delta
    simp [hs]
  have e2 : try_flush_pending_until_delta
      { sb with delta_lock := true } sb.current_delta
      = ({ sb with delta_lock := true }, true) := by
    unfold try_flush_pending_until_delta
    simp [hc]
  have w1 : wait_for_transition { sb with delta_lock := true } sb.current_delta evs1
      = some (0, { sb with delta_lock := true }) := by
    unfold wait_for_transition
    rw [wek_immediate _ evs1 _ (by simp [e1])]
    simp [e1]
  have w2 : wait_for_commit { sb with delta_lock := true } sb.current_delta evs2
      = some (0, { sb with delta_lock := true }) := by
    unfold wait_for_commit
    rw [wek_immediate _ evs2 _ (by simp [e2])]
    simp [e2]
  unfold sync_current_delta
  rw [if_neg (by simp [hl])]
  simp only [delta_get, delta_put, Nat.add_sub_cancel]
  rw [w1]
  simp [w2, hfin]

/-- Witness for C9: the quiescent base state returns success unchanged. -/
theorem sync_current_delta_noop_witness :
    sync_current_delta baseSB UnifyFlags.ALLOW_UNIFY [] [] = some (0, baseSB) :=
  sync_current_delta_noop baseSB [] [] rfl (by decide) (by decide) rfl

/-- C10: when the superblock is not active (replay unfinished), tux3_writeback
returns 0 at once with the state and nr_pages untouched, acquiring no delta
reference and performing no wait or flush; when active, any returned pass
either propagates the interruption error with nr_pages untouched, or
completes with return value 1 and nr_pages set to 0. -/
theorem tux3_writeback_spec (sb : SB) (evs1 evs2 : List Event) (np : Int) :
    tux3_writeback false sb evs1 evs2 np = some (0, sb, np)
      ∧ (∀ r s' np', tux3_writeback true sb evs1 evs2 np = some (r, s', np') →
           (r = eRESTARTSYS ∧ np' = np) ∨ (r = 1 ∧ np' = 0)) := by
  constructor
  · rfl
  · intro r s' np' h
    unfold tux3_writeback at h
    simp only [delta_get, delta_put] at h
    rcases hw : wait_for_transition { sb with refcount := sb.refcount + 1 - 1 }
        sb.current_delta evs1 with _ | ⟨err, sb2⟩ <;> rw [hw] at h
    · simp at h
    · by_cases he : err = 0
      · subst he
        simp at h
        rcases hv : wait_event (fun s => s.pending) evs2 sb2 with _ | sb3 <;>
          rw [hv] at h <;> simp at h
        exact Or.inr ⟨h.1.symm, h.2.2.symm⟩
      · simp [he] at h
        have hk := wek_some
          (fun s => try_delta_transition_until_delta s sb.current_delta)
          (fun _ => True) (fun _ _ => trivial) evs1
          { sb with refcount := sb.refcount + 1 - 1 } err sb2 hw
        exact Or.inl ⟨h.1.symm.trans (hk.2 he), h.2.2.symm⟩

/-- Witness for C10: an inactive call returns 0 untouched; an active pass
over a pending delta completes with return 1 and nr_pages 0. -/
theorem tux3_writeback_spec_witness :
    tux3_writeback false baseSB [] [] 7 = some (0, baseSB, 7)
      ∧ (((1 : Int) = eRESTARTSYS ∧ (0 : Int) = 7)
          ∨ ((1 : Int) = 1 ∧ (0 : Int) = 0)) :=
  ⟨(tux3_writeback_spec baseSB [] [] 7).1,
   (tux3_writeback_spec { baseSB with pending := true, committed_delta := 4 }
       [] [] 7).2 1 { baseSB with flushCount := 1 } 0 (by decide)⟩
